import Mathlib

/-!
Verification of the google-analytics MCP server (stucchi/mcp-google-analytics).

Shallow embedding of the Python sources:
  * `src/google_analytics_mcp/config.py`  — `Config`, `Config.from_env`, `get_config`
  * `src/google_analytics_mcp/auth.py`    — `get_credentials`, `SETUP_GUIDE`,
    `NotConfiguredError`, `check_credentials`
  * `src/google_analytics_mcp/helpers.py` — `with_setup_guide`
  * `src/google_analytics_mcp/tools/data.py`  — `_format_report`, `run_report`
  * `src/google_analytics_mcp/tools/admin.py` — `get_tracking_snippet`,
    `create_custom_dimension`, `get_measurement_protocol_secret`

Modelling conventions:
  * The process environment is a record of the two environment variables the
    code reads; the filesystem is a predicate `String → Bool` telling which
    paths exist.
  * External library operations (`json.loads`, the two
    `Credentials.from_service_account_*` constructors, and each remote API
    call) are parameters of the embedded functions: the repository's code
    never inspects their internals, it only sequences them.  Quantifying over
    these parameters expresses "for every behaviour of the external library /
    remote API".
  * A raised Python exception is an `Except.error` carrying a `PyError`;
    functions that Python lets raise are embedded with return type
    `Except PyError _`, and a decorator that swallows an exception maps the
    corresponding `Except.error` to `Except.ok`.
  * Python truthiness of an `str | None` value (`if x:`) is `pyTruthy`.
  * A Python `dict` built by insertion is an association list with
    first-insertion position and last-write value (`dictOfPairs`).
-/

/-- A single quote character, used to build the HTML/JS string literals of
`admin.get_tracking_snippet` exactly as the source writes them. -/
def singleQuote : String := String.mk [Char.ofNat 39]

/-- Python truthiness of an `str | None` value: `None` and `""` are falsy. -/
def pyTruthy : Option String → Bool
  | none => false
  | some s => !s.isEmpty

/-- A Python dict with string keys and values, as an association list in
insertion order. -/
abbrev Dict := List (String × String)

/-- One insertion into a Python dict: an existing key keeps its position and
gets the new value, a new key is appended. -/
def dictInsert (d : Dict) (k v : String) : Dict :=
  if d.any (fun p => p.1 = k) then
    d.map (fun p => if p.1 = k then (k, v) else p)
  else
    d ++ [(k, v)]

/-- `dict(pairs)` in Python: fold the pairs into an empty dict. -/
def dictOfPairs (ps : List (String × String)) : Dict :=
  ps.foldl (fun d p => dictInsert d p.1 p.2) []

/-! ## config.py -/

/-- `config.SCOPES`. -/
def SCOPES : List String :=
  ["https://www.googleapis.com/auth/analytics.edit",
   "https://www.googleapis.com/auth/analytics.readonly"]

/-- `config.DEFAULT_CREDENTIALS_PATH` (`Path.home() / ".google-analytics-mcp"
/ "credentials.json"`), as a function of the home directory. -/
def DEFAULT_CREDENTIALS_PATH (home : String) : String :=
  home ++ "/.google-analytics-mcp/credentials.json"

/-- The two environment variables read by `Config.from_env`. -/
structure Env where
  GA_CREDENTIALS : Option String
  GA_CREDENTIALS_PATH : Option String
deriving DecidableEq, Repr

/-- `config.Config`: frozen dataclass with the raw JSON string from the
environment and the fallback file path. -/
structure Config where
  credentials_json : Option String
  credentials_path : String
deriving DecidableEq, Repr

/-- `Config.from_env`: `credentials_json` is `os.environ.get("GA_CREDENTIALS")`
and `credentials_path` is `GA_CREDENTIALS_PATH` or the default path.
(`Path(...).expanduser()` is modelled as the identity: the claims under
verification never exercise `~`-expansion.) -/
def Config.from_env (home : String) (env : Env) : Config :=
  { credentials_json := env.GA_CREDENTIALS,
    credentials_path := env.GA_CREDENTIALS_PATH.getD (DEFAULT_CREDENTIALS_PATH home) }

/-- `config.get_config`: the module-level `_config : Config | None` cell is
passed explicitly; the call returns the config together with the new cell
contents. -/
def get_config (state : Option Config) (home : String) (env : Env) :
    Config × Option Config :=
  match state with
  | some c => (c, some c)
  | none =>
    let c := Config.from_env home env
    (c, some c)

/-! ## auth.py -/

/-- The exceptions that flow through this code.  `notConfigured` is
`auth.NotConfiguredError`; `jsonDecode` is the `json.JSONDecodeError` raised
by `json.loads` on malformed input; `keyError` is the `KeyError` of a failed
enum-name lookup; `external` is any other exception raised by the Google
libraries or a remote call. -/
inductive PyError where
  | notConfigured
  | jsonDecode (msg : String)
  | keyError (key : String)
  | external (msg : String)
deriving DecidableEq, Repr

/-- `auth.SETUP_GUIDE` (the remediation text; `NotConfiguredError` is
constructed with it, so `str(e)` on that exception is this string). -/
def SETUP_GUIDE : String :=
  String.intercalate "\n"
    ["Google Analytics MCP is not configured yet. Follow these steps:",
     "",
     "1. Go to Google Cloud Console → IAM & Admin → Service Accounts",
     "   https://console.cloud.google.com/iam-admin/serviceaccounts",
     "   - Create a new project (or select an existing one)",
     "   - Click \"+ Create Service Account\", give it any name, click \"Done\"",
     "",
     "2. Create a JSON key:",
     "   - Click the service account you just created",
     "   - Go to \"Keys\" tab → \"Add Key\" → \"Create new key\" → JSON → Download",
     "",
     "3. Enable the APIs in your GCP project:",
     "   - Google Analytics Admin API: https://console.cloud.google.com/apis/library/analyticsadmin.googleapis.com",
     "   - Google Analytics Data API: https://console.cloud.google.com/apis/library/analyticsdata.googleapis.com",
     "",
     "4. Grant access in GA4:",
     "   - Go to GA4 → Admin → Property Access Management",
     "   - Click \"+\" → add the service account email (it looks like name@project.iam.gserviceaccount.com)",
     "   - Give it \"Editor\" role",
     "",
     "5. Configure this MCP server:",
     "   - Open the JSON file you downloaded in step 2",
     "   - Copy the entire content",
     "   - Set it as the GA_CREDENTIALS environment variable in your MCP client config",
     "",
     "   Example for Claude Desktop (claude_desktop_config.json):",
     "   \x7b",
     "     \"mcpServers\": \x7b",
     "       \"google-analytics\": \x7b",
     "         \"command\": \"uvx\",",
     "         \"args\": [\"google-analytics-4-mcp\"],",
     "         \"env\": \x7b",
     "           \"GA_CREDENTIALS\": \"<paste the entire JSON here>\"",
     "         \x7d",
     "       \x7d",
     "     \x7d",
     "   \x7d",
     "",
     "   Example for Claude Code:",
     "   claude mcp add google-analytics -e GA_CREDENTIALS=" ++ singleQuote ++ "<paste JSON>" ++ singleQuote ++ " -- uvx google-analytics-4-mcp",
     "",
     "That" ++ singleQuote ++ "s it! Restart your MCP client and try again."]

/-- `str(e)` for the errors above. -/
def PyError.message : PyError → String
  | .notConfigured => SETUP_GUIDE
  | .jsonDecode m => m
  | .keyError k => k
  | .external m => m

/-- An opaque placeholder for the parsed JSON value returned by `json.loads`.
Only its identity matters: the code hands it straight to
`Credentials.from_service_account_info`. -/
structure JsonInfo where
  raw : String
deriving DecidableEq, Repr

/-- `google.oauth2.service_account.Credentials`: the fields `check_credentials`
reads. -/
structure Credentials where
  service_account_email : String
  project_id : String
  scopes : Option (List String)
deriving DecidableEq, Repr

/-- Behaviour of the external credential machinery: `json.loads`,
`Credentials.from_service_account_info` and
`Credentials.from_service_account_file`.  Each may raise (exceptions other
than `NotConfiguredError`, modelled by their message). -/
structure ExternalAuth where
  jsonLoads : String → Except String JsonInfo
  from_service_account_info : JsonInfo → List String → Except String Credentials
  from_service_account_file : String → List String → Except String Credentials

/-- `auth.get_credentials`, with the config already resolved (the Python body
starts with `cfg = get_config()`), the filesystem `fs` and the external
library `ext` as parameters.

Priority, exactly as the source:
  1. if `cfg.credentials_json` is truthy, `json.loads` it (a parse failure
     raises `jsonDecode`) and build from the parsed info;
  2. else if the file at `cfg.credentials_path` exists, build from the file;
  3. else raise `NotConfiguredError`. -/
def get_credentials (cfg : Config) (fs : String → Bool) (ext : ExternalAuth) :
    Except PyError Credentials :=
  if pyTruthy cfg.credentials_json then
    match ext.jsonLoads (cfg.credentials_json.getD "") with
    | .error m => .error (.jsonDecode m)
    | .ok info =>
      match ext.from_service_account_info info SCOPES with
      | .error m => .error (.external m)
      | .ok c => .ok c
  else if fs cfg.credentials_path then
    match ext.from_service_account_file cfg.credentials_path SCOPES with
    | .error m => .error (.external m)
    | .ok c => .ok c
  else
    .error .notConfigured

/-! ## helpers.py -/

/-- `helpers.with_setup_guide`: the decorator catches `NotConfiguredError`
and returns `str(e)` (which is `SETUP_GUIDE`); every other outcome of the
wrapped body — normal return or any other exception — passes through
unchanged. -/
def with_setup_guide (body : Except PyError String) : Except PyError String :=
  match body with
  | .error .notConfigured => .ok (PyError.notConfigured.message)
  | r => r

/-- `auth.check_credentials` returns a Python dict whose values are strings,
booleans or string lists. -/
inductive PyVal where
  | s (v : String)
  | b (v : Bool)
  | strs (v : List String)
deriving DecidableEq, Repr

/-- `auth.check_credentials`: `try` the whole credential resolution; on
success return the status dict with the identity fields, on any exception
return `{"authenticated": False, "reason": str(e)}`.  The embedding is a
total function: no exception escapes. -/
def check_credentials (cfg : Config) (fs : String → Bool) (ext : ExternalAuth) :
    List (String × PyVal) :=
  match get_credentials cfg fs ext with
  | .ok creds =>
    [("authenticated", .b true),
     ("service_account_email", .s creds.service_account_email),
     ("project_id", .s creds.project_id),
     ("scopes", .strs (creds.scopes.getD []))]
  | .error e =>
    [("authenticated", .b false), ("reason", .s e.message)]

/-! ## tools/data.py -/

/-- `Filter.StringFilter.MatchType` (the members the code uses). -/
inductive MatchType where
  | EXACT
deriving DecidableEq, Repr

/-- `Filter.StringFilter`. -/
structure StringFilter where
  value : String
  match_type : MatchType
deriving DecidableEq, Repr

/-- `data_v1beta.types.Filter` (the fields the code sets).  The source name
`Filter` is taken by Mathlib, hence `ReportFilter`. -/
structure ReportFilter where
  field_name : String
  string_filter : StringFilter
deriving DecidableEq, Repr

/-- `data_v1beta.types.FilterExpression` (the one-of arm the code uses). -/
structure FilterExpression where
  filter : ReportFilter
deriving DecidableEq, Repr

/-- `data_v1beta.types.DateRange`. -/
structure DateRange where
  start_date : String
  end_date : String
deriving DecidableEq, Repr

/-- `data_v1beta.types.RunReportRequest` (the fields the code sets;
`dimension_filter` is unset — `none` — unless assigned). -/
structure RunReportRequest where
  property : String
  dimensions : List String
  metrics : List String
  date_ranges : List DateRange
  limit : Int
  offset : Int
  dimension_filter : Option FilterExpression
deriving DecidableEq, Repr

/-- The request-construction part of `data.run_report`: build the
`RunReportRequest`, then, when both filter arguments are truthy, assign the
single exact-match string filter.  (`client.run_report` itself is a remote
call, outside this layer.) -/
def run_report_request (property_id : String) (dimensions metrics : List String)
    (start_date end_date : String)
    (dimension_filter_name dimension_filter_value : Option String)
    (limit offset : Int) : RunReportRequest :=
  let request : RunReportRequest :=
    { property := "properties/" ++ property_id,
      dimensions := dimensions,
      metrics := metrics,
      date_ranges := [{ start_date := start_date, end_date := end_date }],
      limit := limit,
      offset := offset,
      dimension_filter := none }
  if pyTruthy dimension_filter_name && pyTruthy dimension_filter_value then
    { request with
      dimension_filter := some
        { filter :=
          { field_name := dimension_filter_name.getD "",
            string_filter :=
            { value := dimension_filter_value.getD "",
              match_type := MatchType.EXACT } } } }
  else
    request

/-- A row of a `RunReportResponse`: its dimension values and metric values. -/
structure ReportRow where
  dimension_values : List String
  metric_values : List String
deriving DecidableEq, Repr

/-- The fields of a `RunReportResponse` that `_format_report` reads: header
names and row values (each header/value is read through its `.name` /
`.value` attribute, so plain strings here), plus the API's total
`row_count`. -/
structure ReportResponse where
  dimension_headers : List String
  metric_headers : List String
  rows : List ReportRow
  row_count : Nat
deriving DecidableEq, Repr

/-- The value returned by `data._format_report`. -/
structure FormattedReport where
  row_count : Nat
  headers : List String
  rows : List Dict
deriving DecidableEq, Repr

/-- `data._format_report`: concatenate dimension then metric header names;
for each row, `dict(zip(headers, values))` with values in
dimension-then-metric order; keep the response's `row_count`. -/
def format_report (response : ReportResponse) : FormattedReport :=
  let headers := response.dimension_headers ++ response.metric_headers
  let rows := response.rows.map (fun row =>
    dictOfPairs (headers.zip (row.dimension_values ++ row.metric_values)))
  { row_count := response.row_count,
    headers := headers,
    rows := rows }

/-! ## tools/admin.py -/

/-- `admin_v1beta.types.CustomDimension.DimensionScope` (proto enum
members). -/
inductive DimensionScope where
  | DIMENSION_SCOPE_UNSPECIFIED
  | EVENT
  | USER
  | ITEM
deriving DecidableEq, Repr

/-- `CustomDimension.DimensionScope[name]`: Python enum lookup by member
name; an unknown name raises `KeyError`, modelled as `none`. -/
def DimensionScope.ofName (s : String) : Option DimensionScope :=
  if s = "DIMENSION_SCOPE_UNSPECIFIED" then some .DIMENSION_SCOPE_UNSPECIFIED
  else if s = "EVENT" then some .EVENT
  else if s = "USER" then some .USER
  else if s = "ITEM" then some .ITEM
  else none

/-- `admin_v1beta.types.CustomDimension` (fields the code sets). -/
structure CustomDimension where
  parameter_name : String
  display_name : String
  scope : DimensionScope
  description : String
deriving DecidableEq, Repr

/-- `admin_v1beta.types.CreateCustomDimensionRequest`. -/
structure CreateCustomDimensionRequest where
  parent : String
  custom_dimension : CustomDimension
deriving DecidableEq, Repr

/-- `admin.create_custom_dimension`: `_client()` resolves credentials first
(a failure there raises out of this function); then the `CustomDimension`
message is built — the enum lookup `DimensionScope[scope]` raising `KeyError`
on an unknown name — and only then is the remote
`client.create_custom_dimension` call (the parameter `remote`) made with the
assembled request. -/
def create_custom_dimension {α : Type}
    (creds : Except PyError Credentials)
    (property_id parameter_name display_name scope description : String)
    (remote : CreateCustomDimensionRequest → Except PyError α) :
    Except PyError α :=
  match creds with
  | .error e => .error e
  | .ok _ =>
    match DimensionScope.ofName scope with
    | none => .error (.keyError scope)
    | some sc =>
      remote
        { parent := "properties/" ++ property_id,
          custom_dimension :=
          { parameter_name := parameter_name,
            display_name := display_name,
            scope := sc,
            description := description } }

/-- `admin.get_tracking_snippet`: a pure function of `measurement_id` — it
touches neither credentials nor any client.  The f-string is transcribed
piecewise (`\x7b`/`\x7d` are the literal braces produced by the f-string's
doubled braces). -/
def get_tracking_snippet (measurement_id : String) : String :=
  "<!-- Google Analytics 4 -->\n<script async src=\"https://www.googletagmanager.com/gtag/js?id="
    ++ measurement_id
    ++ "\"></script>\n<script>\n  window.dataLayer = window.dataLayer || [];\n  function gtag()\x7bdataLayer.push(arguments);\x7d\n  gtag("
    ++ singleQuote ++ "js" ++ singleQuote
    ++ ", new Date());\n  gtag("
    ++ singleQuote ++ "config" ++ singleQuote ++ ", " ++ singleQuote
    ++ measurement_id
    ++ singleQuote ++ ");\n</script>\n<!-- End Google Analytics 4 -->"

/-- `admin_v1beta.types.MeasurementProtocolSecret` (field the code sets). -/
structure MeasurementProtocolSecret where
  display_name : String
deriving DecidableEq, Repr

/-- `admin_v1beta.types.ListMeasurementProtocolSecretsRequest`. -/
structure ListMeasurementProtocolSecretsRequest where
  parent : String
deriving DecidableEq, Repr

/-- `admin_v1beta.types.CreateMeasurementProtocolSecretRequest`. -/
structure CreateMeasurementProtocolSecretRequest where
  parent : String
  measurement_protocol_secret : MeasurementProtocolSecret
deriving DecidableEq, Repr

/-- `admin.get_measurement_protocol_secret` after `_client()` succeeded:
list the existing secrets for the stream (each already converted by
`proto_to_dict`, folded into the `listRemote` parameter of type `List α`);
if any exist return the first, otherwise create one carrying the supplied
display name and return it.  The second component records whether the
create call was issued. -/
def get_measurement_protocol_secret {α : Type}
    (property_id stream_id display_name : String)
    (listRemote : ListMeasurementProtocolSecretsRequest → List α)
    (createRemote : CreateMeasurementProtocolSecretRequest → α) : α × Bool :=
  let parent := "properties/" ++ property_id ++ "/dataStreams/" ++ stream_id
  let secrets := listRemote { parent := parent }
  match secrets with
  | s :: _ => (s, false)
  | [] =>
    (createRemote
      { parent := parent,
        measurement_protocol_secret := { display_name := display_name } },
     true)

/-! ## server.py -/

/-- A generic authenticated tool as registered in `server.py`:
`@with_setup_guide` wraps a body whose first step (inside the tool module's
`_client()`) resolves credentials and whose remainder is `rest` — the request
construction, the remote call and the formatting to text. -/
def wrapped_authed_tool (cfg : Config) (fs : String → Bool) (ext : ExternalAuth)
    (rest : Credentials → Except PyError String) : Except PyError String :=
  with_setup_guide
    (match get_credentials cfg fs ext with
     | .error e => .error e
     | .ok c => rest c)

/-- `server.get_tracking_snippet`: the one tool registered WITHOUT
`@with_setup_guide`; it forwards directly to `admin.get_tracking_snippet`
and can only return normally. -/
def server_get_tracking_snippet (measurement_id : String) :
    Except PyError String :=
  .ok (get_tracking_snippet measurement_id)

/-! ## Verification helpers -/

/-- `listStarts pat l` is true when `pat` is an initial segment of `l`. -/
def listStarts : List Char → List Char → Bool
  | [], _ => true
  | _ :: _, [] => false
  | p :: ps, c :: cs => p = c && listStarts ps cs

/-- Number of (possibly overlapping) occurrences of `pat` in a character
list. -/
def occList (pat : List Char) : List Char → Nat
  | [] => 0
  | c :: rest => (if listStarts pat (c :: rest) then 1 else 0) + occList pat rest

/-- Number of occurrences of the pattern string in `s`. -/
def countOccs (pat s : String) : Nat := occList pat.data s.data

/-- The script-source URL of the tracking snippet, as a function of the
measurement id. -/
def script_src_url (m : String) : String :=
  "https://www.googletagmanager.com/gtag/js?id=" ++ m

/-- The `gtag(...)` configuration call of the tracking snippet, as a function
of the measurement id. -/
def gtag_config_call (m : String) : String :=
  "gtag(" ++ singleQuote ++ "config" ++ singleQuote ++ ", " ++ singleQuote
    ++ m ++ singleQuote ++ ")"

/-- Lookup in a Python dict modelled as an association list. -/
def dictLookup (d : Dict) (k : String) : Option String :=
  (d.find? (fun p => p.1 = k)).map (fun p => p.2)

/-- A service-account credential used to instantiate the external-library
parameters in concrete scenarios. -/
def sampleCreds : Credentials :=
  { service_account_email := "name@project.iam.gserviceaccount.com",
    project_id := "project",
    scopes := some SCOPES }

/-- A filesystem with no credential file anywhere. -/
def fsNone : String → Bool := fun _ => false

/-- A concrete behaviour of the external credential machinery: `json.loads`
fails on the literal input `not json` (with CPython's actual message) and
succeeds on anything else; both credential constructors succeed. -/
def extSample : ExternalAuth :=
  { jsonLoads := fun s =>
      if s = "not json" then .error "Expecting value: line 1 column 1 (char 0)"
      else .ok { raw := s },
    from_service_account_info := fun _ _ => .ok sampleCreds,
    from_service_account_file := fun _ _ => .ok sampleCreds }

/-! ## Theorems -/

/-- **C4.** The setup-guide wrapper applied to every authenticated operation
converts exactly the `NotConfiguredError` failure kind into the fixed
remediation text `SETUP_GUIDE`, and propagates every other exception raised
by the wrapped operation unchanged; a normal return also passes through
unchanged, so no error is silently dropped. -/
theorem with_setup_guide_policy :
    with_setup_guide (.error .notConfigured) = .ok SETUP_GUIDE ∧
    (∀ s : String, with_setup_guide (.ok s) = .ok s) ∧
    (∀ e : PyError, e ≠ .notConfigured → with_setup_guide (.error e) = .error e) := by
  refine ⟨rfl, fun s => rfl, fun e he => ?_⟩
  cases e with
  | notConfigured => exact absurd rfl he
  | jsonDecode m => rfl
  | keyError k => rfl
  | external m => rfl

/-- Witness for **C4**: a remote-API failure (an `external` error) passes
through the wrapper unchanged. -/
theorem with_setup_guide_policy_witness :
    with_setup_guide (.error (.external "403 permission denied"))
      = .error (.external "403 permission denied") :=
  with_setup_guide_policy.2.2 (.external "403 permission denied") (by decide)

/-- **C7.** `get_config` is a process-wide singleton: starting from the empty
cell, the first call builds the config from the environment and stores it,
and a second call — under any environment whatsoever — returns that identical
object and leaves the cell unchanged, without re-reading the environment
(the result does not depend on `home2`/`env2`). -/
theorem get_config_singleton :
    ∀ (home : String) (env : Env) (home2 : String) (env2 : Env),
      get_config none home env = (Config.from_env home env, some (Config.from_env home env)) ∧
      get_config (get_config none home env).2 home2 env2
        = (Config.from_env home env, some (Config.from_env home env)) := by
  intro home env home2 env2
  exact ⟨rfl, rfl⟩

/-- **C10.** `get_measurement_protocol_secret` first lists the secrets of the
given property/stream; when the list is non-empty it returns the first one
and the create call is never issued (the result does not depend on the
create behaviour); only when the list is empty does it call create with the
parent path and the supplied display name and return that result. -/
theorem get_measurement_protocol_secret_get_or_create :
    ∀ (α : Type) (pid sid dn : String)
      (listRemote : ListMeasurementProtocolSecretsRequest → List α)
      (createRemote createRemote2 : CreateMeasurementProtocolSecretRequest → α),
      (∀ (s : α) (rest : List α),
        listRemote { parent := "properties/" ++ pid ++ "/dataStreams/" ++ sid } = s :: rest →
        get_measurement_protocol_secret pid sid dn listRemote createRemote = (s, false) ∧
        get_measurement_protocol_secret pid sid dn listRemote createRemote
          = get_measurement_protocol_secret pid sid dn listRemote createRemote2) ∧
      (listRemote { parent := "properties/" ++ pid ++ "/dataStreams/" ++ sid } = [] →
        get_measurement_protocol_secret pid sid dn listRemote createRemote
          = (createRemote
              { parent := "properties/" ++ pid ++ "/dataStreams/" ++ sid,
                measurement_protocol_secret := { display_name := dn } },
             true)) := by
  intro α pid sid dn listRemote createRemote createRemote2
  constructor
  · intro s rest hlist
    simp [get_measurement_protocol_secret, hlist]
  · intro hlist
    simp only [get_measurement_protocol_secret, hlist]

/-- Witness for **C10**: with one existing secret the first listed secret is
returned and no create happens; with none, the created secret carrying the
supplied display name is returned. -/
theorem get_measurement_protocol_secret_witness :
    get_measurement_protocol_secret "123" "456" "MCP Server"
        (fun _ => ["existing-secret"]) (fun _ => "created-secret")
      = ("existing-secret", false) ∧
    get_measurement_protocol_secret "123" "456" "MCP Server"
        (fun _ => ([] : List String))
        (fun r => r.measurement_protocol_secret.display_name)
      = ("MCP Server", true) :=
  ⟨(((get_measurement_protocol_secret_get_or_create String "123" "456" "MCP Server"
      (fun _ => ["existing-secret"]) (fun _ => "created-secret")
      (fun _ => "other")).1 "existing-secret" [] rfl)).1,
   (get_measurement_protocol_secret_get_or_create String "123" "456" "MCP Server"
      (fun _ => ([] : List String))
      (fun r => r.measurement_protocol_secret.display_name)
      (fun _ => "other")).2 rfl⟩

/-- **C3.** `run_report`: when both `dimension_filter_name` and
`dimension_filter_value` are supplied (a non-`None`, non-empty string each),
the constructed report request carries exactly one dimension filter — an
exact-match string filter on that field name with that value; when either of
the two is not supplied (`None`), the request carries no dimension filter. -/
theorem run_report_dimension_filter :
    (∀ (pid : String) (dims mets : List String) (sd ed n v : String) (lim off : Int),
      n ≠ "" → v ≠ "" →
      (run_report_request pid dims mets sd ed (some n) (some v) lim off).dimension_filter
        = some { filter :=
            { field_name := n,
              string_filter := { value := v, match_type := .EXACT } } }) ∧
    (∀ (pid : String) (dims mets : List String) (sd ed : String)
       (fname fval : Option String) (lim off : Int),
      fname = none ∨ fval = none →
      (run_report_request pid dims mets sd ed fname fval lim off).dimension_filter
        = none) := by
  constructor
  · intro pid dims mets sd ed n v lim off hn hv
    have hn2 : n.isEmpty = false := by
      rw [← Bool.not_eq_true, String.isEmpty_iff]; exact hn
    have hv2 : v.isEmpty = false := by
      rw [← Bool.not_eq_true, String.isEmpty_iff]; exact hv
    simp [run_report_request, pyTruthy, hn2, hv2]
  · intro pid dims mets sd ed fname fval lim off h
    rcases h with h | h <;> subst h <;>
      simp [run_report_request, pyTruthy]

/-- Witness for **C3**: filtering on `country = US` attaches the single
exact-match filter; omitting the value (or the name) attaches none. -/
theorem run_report_dimension_filter_witness :
    (run_report_request "123456789" ["country"] ["activeUsers"] "28daysAgo" "today"
        (some "country") (some "US") 100 0).dimension_filter
      = some { filter :=
          { field_name := "country",
            string_filter := { value := "US", match_type := .EXACT } } } ∧
    (run_report_request "123456789" ["country"] ["activeUsers"] "28daysAgo" "today"
        (some "country") none 100 0).dimension_filter = none ∧
    (run_report_request "123456789" ["country"] ["activeUsers"] "28daysAgo" "today"
        none none 100 0).dimension_filter = none :=
  ⟨run_report_dimension_filter.1 "123456789" ["country"] ["activeUsers"]
      "28daysAgo" "today" "country" "US" 100 0 (by decide) (by decide),
   run_report_dimension_filter.2 "123456789" ["country"] ["activeUsers"]
      "28daysAgo" "today" (some "country") none 100 0 (Or.inr rfl),
   run_report_dimension_filter.2 "123456789" ["country"] ["activeUsers"]
      "28daysAgo" "today" none none 100 0 (Or.inl rfl)⟩

/-- **C5.** `create_custom_dimension` with a scope string that is not a
member of `DimensionScope` fails with a `KeyError` on that string, assuming
credentials resolve, and the remote create call is never attempted (the
outcome is the same for every remote behaviour); `INVALID` in particular is
not a member. -/
theorem create_custom_dimension_unknown_scope :
    (∀ (α : Type) (creds : Except PyError Credentials) (c : Credentials)
       (pid pname dname scope desc : String)
       (remote remote2 : CreateCustomDimensionRequest → Except PyError α),
      creds = .ok c →
      DimensionScope.ofName scope = none →
      create_custom_dimension creds pid pname dname scope desc remote
        = .error (.keyError scope) ∧
      create_custom_dimension creds pid pname dname scope desc remote
        = create_custom_dimension creds pid pname dname scope desc remote2) ∧
    DimensionScope.ofName "INVALID" = none := by
  constructor
  · intro α creds c pid pname dname scope desc remote remote2 hc hs
    subst hc
    simp [create_custom_dimension, hs]
  · rfl

/-- Witness for **C5**: with resolving credentials, `scope="INVALID"` makes
the construction fail with `KeyError("INVALID")` under any remote
behaviour. -/
theorem create_custom_dimension_unknown_scope_witness :
    create_custom_dimension (α := String) (.ok sampleCreds)
        "123456789" "user_type" "User Type" "INVALID" ""
        (fun _ => .ok "created")
      = .error (.keyError "INVALID") ∧
    create_custom_dimension (α := String) (.ok sampleCreds)
        "123456789" "user_type" "User Type" "INVALID" ""
        (fun _ => .ok "created")
      = create_custom_dimension (α := String) (.ok sampleCreds)
          "123456789" "user_type" "User Type" "INVALID" ""
          (fun _ => .error (.external "remote reached")) :=
  create_custom_dimension_unknown_scope.1 String (.ok sampleCreds) sampleCreds
    "123456789" "user_type" "User Type" "INVALID" ""
    (fun _ => .ok "created") (fun _ => .error (.external "remote reached"))
    rfl create_custom_dimension_unknown_scope.2

/-- **C6.** `get_credentials` resolves in priority order: a present (truthy)
inline `GA_CREDENTIALS` payload is alone parsed and used to build the
credential — the file path is never consulted, i.e. the result is the same
under every filesystem; otherwise, when the file at the configured or
default path exists it is used; otherwise `NotConfiguredError` is raised. -/
theorem get_credentials_priority :
    ∀ (cfg : Config) (fs fs2 : String → Bool) (ext : ExternalAuth),
      (∀ s : String, cfg.credentials_json = some s → s ≠ "" →
        (get_credentials cfg fs ext
          = match ext.jsonLoads s with
            | .error m => .error (.jsonDecode m)
            | .ok info =>
              match ext.from_service_account_info info SCOPES with
              | .error m => .error (.external m)
              | .ok c => .ok c) ∧
        get_credentials cfg fs ext = get_credentials cfg fs2 ext) ∧
      (pyTruthy cfg.credentials_json = false → fs cfg.credentials_path = true →
        get_credentials cfg fs ext
          = match ext.from_service_account_file cfg.credentials_path SCOPES with
            | .error m => .error (.external m)
            | .ok c => .ok c) ∧
      (pyTruthy cfg.credentials_json = false → fs cfg.credentials_path = false →
        get_credentials cfg fs ext = .error .notConfigured) := by
  intro cfg fs fs2 ext
  refine ⟨?_, ?_, ?_⟩
  · intro s hjson hs
    have hs2 : s.isEmpty = false := by
      rw [← Bool.not_eq_true, String.isEmpty_iff]; exact hs
    constructor <;> simp [get_credentials, hjson, pyTruthy, hs2]
  · intro hjson hfile
    simp [get_credentials, hjson, hfile]
  · intro hjson hfile
    simp [get_credentials, hjson, hfile]

/-- Witness for **C6**: with an inline payload the file path is ignored even
when a file exists there; without payload and without file the call fails
with `NotConfiguredError`. -/
theorem get_credentials_priority_witness :
    get_credentials { credentials_json := some "\x7b\x7d", credentials_path := "/tmp/creds.json" }
        fsNone extSample
      = get_credentials { credentials_json := some "\x7b\x7d", credentials_path := "/tmp/creds.json" }
          (fun _ => true) extSample ∧
    get_credentials { credentials_json := none, credentials_path := "/tmp/creds.json" }
        fsNone extSample
      = .error .notConfigured :=
  ⟨((get_credentials_priority
      { credentials_json := some "\x7b\x7d", credentials_path := "/tmp/creds.json" }
      fsNone (fun _ => true) extSample).1 "\x7b\x7d" rfl (by decide)).2,
   (get_credentials_priority
      { credentials_json := none, credentials_path := "/tmp/creds.json" }
      fsNone fsNone extSample).2.2 rfl rfl⟩

/-- **C9.** `check_credentials` never raises: it is a total function whose
result always contains the key `authenticated` — paired with `True`,
the service-account email, the project id and the scope list when
credential resolution succeeds, and with `False` plus a `reason` string
(the stringified exception) whenever resolution fails for any reason. -/
theorem check_credentials_total_status :
    ∀ (cfg : Config) (fs : String → Bool) (ext : ExternalAuth),
      (∃ v : PyVal, ("authenticated", v) ∈ check_credentials cfg fs ext) ∧
      (∀ c : Credentials, get_credentials cfg fs ext = .ok c →
        check_credentials cfg fs ext
          = [("authenticated", .b true),
             ("service_account_email", .s c.service_account_email),
             ("project_id", .s c.project_id),
             ("scopes", .strs (c.scopes.getD []))]) ∧
      (∀ e : PyError, get_credentials cfg fs ext = .error e →
        check_credentials cfg fs ext
          = [("authenticated", .b false), ("reason", .s e.message)]) := by
  intro cfg fs ext
  refine ⟨?_, ?_, ?_⟩
  · cases h : get_credentials cfg fs ext with
    | ok c => exact ⟨.b true, by simp [check_credentials, h]⟩
    | error e => exact ⟨.b false, by simp [check_credentials, h]⟩
  · intro c h
    simp [check_credentials, h]
  · intro e h
    simp [check_credentials, h]

/-- Witness for **C9**: a resolvable credential yields the authenticated
status dict; a missing configuration yields `authenticated = False` with the
setup guide as the reason. -/
theorem check_credentials_total_status_witness :
    check_credentials { credentials_json := some "\x7b\x7d", credentials_path := "/p" }
        fsNone extSample
      = [("authenticated", .b true),
         ("service_account_email", .s "name@project.iam.gserviceaccount.com"),
         ("project_id", .s "project"),
         ("scopes", .strs SCOPES)] ∧
    check_credentials { credentials_json := none, credentials_path := "/p" }
        fsNone extSample
      = [("authenticated", .b false), ("reason", .s SETUP_GUIDE)] :=
  ⟨(check_credentials_total_status
      { credentials_json := some "\x7b\x7d", credentials_path := "/p" }
      fsNone extSample).2.1 sampleCreds rfl,
   (check_credentials_total_status
      { credentials_json := none, credentials_path := "/p" }
      fsNone extSample).2.2 .notConfigured rfl⟩

/-- **C1**, counterexample.  The claim includes the scenario "GA_CREDENTIALS
set to malformed JSON" among those in which every wrapped tool returns the
setup-guide text.  It does not: `json.loads` raises `json.JSONDecodeError`,
which is not a `NotConfiguredError`, so `with_setup_guide` lets it
propagate — at the concrete environment `GA_CREDENTIALS="not json"` (no path
variable, no file anywhere) a wrapped tool whose body would return normally
raises the decode error instead of returning `SETUP_GUIDE`. -/
theorem malformed_json_env_tool_raises :
    wrapped_authed_tool (Config.from_env "/home/user" { GA_CREDENTIALS := some "not json", GA_CREDENTIALS_PATH := none })
        fsNone extSample (fun _ => .ok "report")
      = .error (.jsonDecode "Expecting value: line 1 column 1 (char 0)") ∧
    wrapped_authed_tool (Config.from_env "/home/user" { GA_CREDENTIALS := some "not json", GA_CREDENTIALS_PATH := none })
        fsNone extSample (fun _ => .ok "report")
      ≠ .ok SETUP_GUIDE := by
  have h : wrapped_authed_tool (Config.from_env "/home/user" { GA_CREDENTIALS := some "not json", GA_CREDENTIALS_PATH := none })
        fsNone extSample (fun _ => .ok "report")
      = .error (.jsonDecode "Expecting value: line 1 column 1 (char 0)") := rfl
  refine ⟨h, ?_⟩
  rw [h]
  intro hcontra
  exact Except.noConfusion hcontra

/-- **C1** as amended.  For every tool wrapped by the setup-guide adapter
(every body `rest`), in each of the three missing-configuration scenarios —
`GA_CREDENTIALS` unset with no `GA_CREDENTIALS_PATH` and no file at the
default path; `GA_CREDENTIALS` unset with a configured path whose file is
missing — the tool call returns the identical setup-guide text as its text
result rather than raising; in the fourth scenario of the original claim
(`GA_CREDENTIALS` set to malformed JSON) the tool instead raises the
propagated JSON decode error. -/
theorem setup_guide_missing_config_scenarios :
    (∀ (home : String) (fs : String → Bool) (ext : ExternalAuth)
       (rest : Credentials → Except PyError String),
      fs (DEFAULT_CREDENTIALS_PATH home) = false →
      wrapped_authed_tool
          (Config.from_env home { GA_CREDENTIALS := none, GA_CREDENTIALS_PATH := none })
          fs ext rest
        = .ok SETUP_GUIDE) ∧
    (∀ (home p : String) (fs : String → Bool) (ext : ExternalAuth)
       (rest : Credentials → Except PyError String),
      fs p = false →
      wrapped_authed_tool
          (Config.from_env home { GA_CREDENTIALS := none, GA_CREDENTIALS_PATH := some p })
          fs ext rest
        = .ok SETUP_GUIDE) ∧
    (∀ (home s m : String) (pathEnv : Option String) (fs : String → Bool)
       (ext : ExternalAuth) (rest : Credentials → Except PyError String),
      s ≠ "" →
      ext.jsonLoads s = .error m →
      wrapped_authed_tool
          (Config.from_env home { GA_CREDENTIALS := some s, GA_CREDENTIALS_PATH := pathEnv })
          fs ext rest
        = .error (.jsonDecode m)) := by
  refine ⟨?_, ?_, ?_⟩
  · intro home fs ext rest hfs
    simp only [DEFAULT_CREDENTIALS_PATH] at hfs
    simp [wrapped_authed_tool, get_credentials, with_setup_guide, Config.from_env,
      pyTruthy, DEFAULT_CREDENTIALS_PATH, PyError.message, hfs]
  · intro home p fs ext rest hfs
    simp [wrapped_authed_tool, get_credentials, with_setup_guide, Config.from_env,
      pyTruthy, PyError.message, hfs]
  · intro home s m pathEnv fs ext rest hs hjson
    have hs2 : s.isEmpty = false := by
      rw [← Bool.not_eq_true, String.isEmpty_iff]; exact hs
    simp [wrapped_authed_tool, get_credentials, with_setup_guide, Config.from_env,
      pyTruthy, hs2, hjson]

/-- Witness for **C1** (amended): at a concrete environment with neither
variable set and no file at the default path, a wrapped tool returns
exactly the setup guide. -/
theorem setup_guide_missing_config_scenarios_witness :
    wrapped_authed_tool
        (Config.from_env "/home/user" { GA_CREDENTIALS := none, GA_CREDENTIALS_PATH := none })
        fsNone extSample (fun _ => .ok "report")
      = .ok SETUP_GUIDE :=
  setup_guide_missing_config_scenarios.1 "/home/user" fsNone extSample
    (fun _ => .ok "report") rfl

/-- Inserting an absent key appends it. -/
theorem dictInsert_append_of_not_mem (d : Dict) (k v : String)
    (h : d.any (fun p => p.1 = k) = false) : dictInsert d k v = d ++ [(k, v)] := by
  simp only [dictInsert, h]
  simp

/-- Folding `dictInsert` over pairs with fresh, pairwise-distinct keys simply
appends them in order. -/
theorem foldl_dictInsert_eq_append :
    ∀ (ps : List (String × String)) (d : Dict),
      (∀ k, k ∈ ps.map Prod.fst → d.any (fun p => p.1 = k) = false) →
      (ps.map Prod.fst).Nodup →
      ps.foldl (fun acc p => dictInsert acc p.1 p.2) d = d ++ ps := by
  intro ps
  induction ps with
  | nil => intro d _ _; simp
  | cons hd tl ih =>
    intro d hdisj hnodup
    have hmap : ((hd :: tl).map Prod.fst) = hd.1 :: tl.map Prod.fst := by simp
    rw [hmap] at hdisj hnodup
    have h1 : d.any (fun p => p.1 = hd.1) = false := hdisj hd.1 (by simp)
    have hnd := List.nodup_cons.mp hnodup
    rw [List.foldl_cons, dictInsert_append_of_not_mem d hd.1 hd.2 h1,
        ih (d ++ [(hd.1, hd.2)]) ?_ hnd.2]
    · simp
    · intro k hk
      have hne : ¬ hd.1 = k := by
        intro he
        exact hnd.1 (he ▸ hk)
      simp [List.any_append, hdisj k (List.mem_cons_of_mem _ hk), hne]

/-- On pairs with pairwise-distinct keys, the Python dict built from them is
the pair list itself. -/
theorem dictOfPairs_eq_self (ps : List (String × String))
    (h : (ps.map Prod.fst).Nodup) : dictOfPairs ps = ps := by
  have := foldl_dictInsert_eq_append ps [] (fun k _ => rfl) h
  simpa [dictOfPairs] using this

/-- The keys of a zip are the initial segment of the key list cut at the
value list's length. -/
theorem map_fst_zip_take :
    ∀ (l1 l2 : List String), ((l1.zip l2).map Prod.fst) = l1.take l2.length := by
  intro l1
  induction l1 with
  | nil => intro l2; simp
  | cons a t ih =>
    intro l2
    cases l2 with
    | nil => simp
    | cons b t2 => simp [ih t2]

/-- **C2.** `_format_report`: the headers are the dimension header names
followed by the metric header names; the `row_count` is the response's total
row count; there is one dict per response row, built by zipping the headers
with that row's dimension-then-metric values (so, headers being pairwise
distinct, each header is paired positionally with the corresponding value);
and on the concrete response with dimension headers `["country"]`, metric
headers `["activeUsers"]` and one row `["US"]`/`["42"]` the result is
exactly headers `["country", "activeUsers"]`, rows
`[{"country": "US", "activeUsers": "42"}]` and the response's row count. -/
theorem format_report_spec :
    (∀ resp : ReportResponse,
      (format_report resp).headers = resp.dimension_headers ++ resp.metric_headers ∧
      (format_report resp).row_count = resp.row_count ∧
      (format_report resp).rows.length = resp.rows.length ∧
      (format_report resp).rows = resp.rows.map (fun row =>
        dictOfPairs ((resp.dimension_headers ++ resp.metric_headers).zip
          (row.dimension_values ++ row.metric_values))) ∧
      ((resp.dimension_headers ++ resp.metric_headers).Nodup →
        (format_report resp).rows = resp.rows.map (fun row =>
          (resp.dimension_headers ++ resp.metric_headers).zip
            (row.dimension_values ++ row.metric_values)))) ∧
    format_report
        { dimension_headers := ["country"], metric_headers := ["activeUsers"],
          rows := [{ dimension_values := ["US"], metric_values := ["42"] }],
          row_count := 1 }
      = { row_count := 1, headers := ["country", "activeUsers"],
          rows := [[("country", "US"), ("activeUsers", "42")]] } := by
  constructor
  · intro resp
    refine ⟨rfl, rfl, by simp [format_report], rfl, ?_⟩
    intro hnodup
    simp only [format_report]
    refine List.map_congr_left ?_
    intro row _
    refine dictOfPairs_eq_self _ ?_
    have hfst : (((resp.dimension_headers ++ resp.metric_headers).zip
        (row.dimension_values ++ row.metric_values)).map Prod.fst)
        = (resp.dimension_headers ++ resp.metric_headers).take
            (row.dimension_values ++ row.metric_values).length :=
      map_fst_zip_take _ _
    rw [hfst]
    exact hnodup.sublist (List.take_sublist _ _)
  · rfl

/-- Witness for **C2**: instantiating the headers-distinct hypothesis at the
concrete one-row response from the claim. -/
theorem format_report_spec_witness :
    (format_report
        { dimension_headers := ["country"], metric_headers := ["activeUsers"],
          rows := [{ dimension_values := ["US"], metric_values := ["42"] }],
          row_count := 1 }).rows
      = [[("country", "US"), ("activeUsers", "42")]] :=
  (format_report_spec.1
    { dimension_headers := ["country"], metric_headers := ["activeUsers"],
      rows := [{ dimension_values := ["US"], metric_values := ["42"] }],
      row_count := 1 }).2.2.2.2 (by decide)

/-- **C8.** `get_tracking_snippet` is a pure function of its
`measurement_id` argument — it is defined without reference to credentials,
configuration or any remote call, and the registered tool
`server_get_tracking_snippet` (the one tool without the setup-guide
wrapper) always returns it normally.  For input `G-ABC123`, the returned
HTML decomposes around the script-source URL and the gtag configuration
call, each of which contains exactly one occurrence of `G-ABC123`; the whole
snippet contains exactly two. -/
theorem get_tracking_snippet_occurrences :
    countOccs "G-ABC123" (script_src_url "G-ABC123") = 1 ∧
    countOccs "G-ABC123" (gtag_config_call "G-ABC123") = 1 ∧
    countOccs "G-ABC123" (get_tracking_snippet "G-ABC123") = 2 ∧
    get_tracking_snippet "G-ABC123"
      = "<!-- Google Analytics 4 -->\n<script async src=\""
          ++ script_src_url "G-ABC123"
          ++ "\"></script>\n<script>\n  window.dataLayer = window.dataLayer || [];\n  function gtag()\x7bdataLayer.push(arguments);\x7d\n  gtag("
          ++ singleQuote ++ "js" ++ singleQuote ++ ", new Date());\n  "
          ++ gtag_config_call "G-ABC123"
          ++ ";\n</script>\n<!-- End Google Analytics 4 -->" ∧
    (∀ m : String, server_get_tracking_snippet m = .ok (get_tracking_snippet m)) := by
  set_option maxRecDepth 20000 in
  refine ⟨by decide, by decide, by decide, by decide, fun m => rfl⟩
